import Mathlib

/-
Shallow embedding of the core analysis pipeline of the gwas_genes repository,
file src/lib/gwas_genes/Utils/get_gene_function.py (analyze_snps_and_genes).

The embedding keeps the shape of the Python code: JSON-level values that feed
the loaders are modelled by JVal, missing values by Option, pandas missing
float cells (NaN) by an explicit PyVal type where the distinction matters.
-/

namespace GwasGenes

/-- A JSON-level value appearing in a variant result tuple. -/
inductive JVal where
  | str (s : String)
  | num (q : ℚ)
  | null
deriving DecidableEq, Repr

/-- The location descriptor of a gene feature: the 4-tuple
[chromosome, coordinate, strand, length] taken from feature.location[0]
(lines 74-78 of get_gene_function.py). -/
structure Location where
  chr : String
  coordinate : Int
  strand : String
  length : Int
deriving DecidableEq, Repr

/-- A gene feature as read from the gene JSON file: id, first location
descriptor, optional list of function strings, optional list of GO term keys
(the keys of ontology_terms.GO). A missing functions field or missing GO
mapping is none (the try/except blocks at lines 87-97). -/
structure GeneFeature where
  id : String
  location : Location
  functions : Option (List String)
  go_terms : Option (List String)
deriving DecidableEq, Repr

/-- A normalized gene record, one row of gene_df (lines 99-108). -/
structure Gene where
  gene_id : String
  function : Option String
  go_terms : Option String
  chr : String
  orientation : String
  start : Int
  end_ : Int
deriving DecidableEq, Repr

/-- Coordinate normalization and field extraction for one gene feature,
lines 71-108 of get_gene_function.py: for orientation "-" the end is the
given coordinate and the start is end minus length; otherwise the start is
the given coordinate minus 1 and the end is start plus length. -/
def loadGene (j : GeneFeature) : Gene :=
  let location := j.location
  let se : Int × Int :=
    if location.strand = "-" then
      (location.coordinate - location.length, location.coordinate)
    else
      (location.coordinate - 1, location.coordinate - 1 + location.length)
  { gene_id := j.id
    function := j.functions.map (String.intercalate " ")
    go_terms := j.go_terms.map (String.intercalate ", ")
    chr := location.chr
    orientation := location.strand
    start := se.1
    end_ := se.2 }

/-- The gene catalog loader: one Gene per input feature, order preserved. -/
def loadGenes (features : List GeneFeature) : List Gene :=
  features.map loadGene

/-- A concrete plus-strand feature used by witnesses. -/
def gFeatPlus : GeneFeature :=
  { id := "G1"
    location := { chr := "1", coordinate := 1000, strand := "+", length := 1000 }
    functions := none
    go_terms := none }

/-- A concrete minus-strand feature used by witnesses. -/
def gFeatMinus : GeneFeature :=
  { id := "G2"
    location := { chr := "1", coordinate := 2000, strand := "-", length := 1000 }
    functions := none
    go_terms := none }

/-- C4: for every gene feature loaded from a location, a plus strand gives
start = coordinate - 1 and end = start + length, a minus strand gives
end = coordinate and start = end - length, and in both cases (in fact for
every strand value) end - start equals the declared feature length. -/
theorem loadGene_coordinates (j : GeneFeature) :
    (j.location.strand = "+" →
      (loadGene j).start = j.location.coordinate - 1 ∧
      (loadGene j).end_ = (loadGene j).start + j.location.length) ∧
    (j.location.strand = "-" →
      (loadGene j).end_ = j.location.coordinate ∧
      (loadGene j).start = (loadGene j).end_ - j.location.length) ∧
    (loadGene j).end_ - (loadGene j).start = j.location.length := by
  unfold loadGene
  by_cases h : j.location.strand = "-" <;> simp [h]

/-- Witness for loadGene_coordinates at the two concrete features. -/
theorem loadGene_coordinates_witness :
    (loadGene gFeatPlus).start = 999 ∧
    (loadGene gFeatPlus).end_ = 1999 ∧
    (loadGene gFeatMinus).end_ = 2000 ∧
    (loadGene gFeatMinus).start = 1000 := by
  have hp := (loadGene_coordinates gFeatPlus).1 (by rfl)
  have hm := ((loadGene_coordinates gFeatMinus).2).1 (by rfl)
  refine ⟨?_, ?_, ?_, ?_⟩
  · exact hp.1
  · rw [hp.2, hp.1]; rfl
  · exact hm.1
  · rw [hm.2, hm.1]; rfl

/-- One entry of the association_details sequence of the SNP JSON file:
its association_results field, a sequence of result tuples. Each result
tuple is a list of JSON values (lines 120-121). -/
structure AssociationDetail where
  association_results : List (List JVal)
deriving DecidableEq, Repr

/-- The SNP JSON file: its association_details sequence (line 120). -/
structure SnpData where
  association_details : List AssociationDetail
deriving DecidableEq, Repr

/-- One raw SNP record as appended at lines 123-129: positional fields 0-4
of a result tuple (chromosome, SNP id, position, p-value, additional value).
The getD defaults are never reached because the loader only builds a record
from tuples of length at least 5. -/
structure RawSnpRecord where
  chr : JVal
  snp_id : JVal
  pos : JVal
  pvalue : JVal
  additional_value : JVal
deriving DecidableEq, Repr

/-- Field extraction of lines 124-128. -/
def mkRawSnpRecord (result : List JVal) : RawSnpRecord :=
  { chr := result.getD 0 JVal.null
    snp_id := result.getD 1 JVal.null
    pos := result.getD 2 JVal.null
    pvalue := result.getD 3 JVal.null
    additional_value := result.getD 4 JVal.null }

/-- The variant catalog loader, lines 119-129: the double loop over
association_details and association_results, keeping a record for each
result tuple with at least 5 fields and silently skipping shorter tuples. -/
def snpRecordsOf (d : SnpData) : List RawSnpRecord :=
  d.association_details.flatMap (fun association =>
    association.association_results.filterMap (fun result =>
      if 5 ≤ result.length then some (mkRawSnpRecord result) else none))

/-- Guarded filterMap is filter followed by map. -/
theorem filterMap_guard_eq {α β : Type} (p : α → Bool) (f : α → β) (l : List α) :
    l.filterMap (fun a => if p a then some (f a) else none) = (l.filter p).map f := by
  induction l with
  | nil => simp
  | cons a as ih => by_cases h : p a <;> simp [h, ih]

/-- C8: the variant loader produces exactly one record per result tuple with
at least 5 positional fields, in order; tuples with fewer than 5 fields are
skipped and leave the rest of the loaded set unchanged (the loaded list is
the filtered flattening of all result tuples, mapped through field
extraction). -/
theorem snpRecordsOf_eq_filter (d : SnpData) :
    snpRecordsOf d =
      ((d.association_details.flatMap (fun a => a.association_results)).filter
        (fun result => decide (5 ≤ result.length))).map mkRawSnpRecord := by
  unfold snpRecordsOf
  rw [List.filter_flatMap, List.map_flatMap]
  refine List.flatMap_congr ?_
  intro a _
  rw [← filterMap_guard_eq (fun result => decide (5 ≤ result.length)) mkRawSnpRecord]
  refine List.filterMap_congr ?_
  intro r _
  by_cases h : 5 ≤ r.length <;> simp [h]

/-- One row of gwas_df as consumed by the per-variant loop (lines 152-155):
chromosome, SNP id, integer position and an optional p-value. A none p-value
models a JSON null, which pandas stores as NaN in a numeric column and as
None in an all-missing column; both satisfy pd.isna, so line 155 turns both
into None before any record is emitted. The additional_value column is
loaded but never read downstream, so it is not carried here. -/
structure Snp where
  chr : String
  snp_id : String
  pos : Int
  pvalue : Option ℚ
deriving DecidableEq, Repr

/-- Elementwise pandas comparison pvalue <= threshold of line 139: a missing
p-value compares False (NaN comparisons are False in a float column, and
pandas scalar_compare returns False for None cells of an object column), so
a variant without a p-value never passes the filter. -/
def pvalueLE (p : Option ℚ) (t : ℚ) : Bool :=
  match p with
  | some q => decide (q ≤ t)
  | none => false

/-- The p-value filter of lines 136-146: applied only when the threshold is
strictly below 1.0, otherwise the variant list is unchanged. -/
def filterByPvalue (pvalue_threshold : ℚ) (gwas : List Snp) : List Snp :=
  if pvalue_threshold < 1 then
    gwas.filter (fun snp => pvalueLE snp.pvalue pvalue_threshold)
  else
    gwas

/-- The is_within_gene column of lines 162-165. -/
def isWithinGene (snp_pos : Int) (g : Gene) : Bool :=
  decide (snp_pos ≥ g.start) && decide (snp_pos ≤ g.end_)

/-- calculate_distance, lines 47-62: 0 when the SNP is within the gene,
otherwise the minimum of the absolute distances to start and end. -/
def calculate_distance (snp_pos : Int) (g : Gene) (is_within_gene : Bool) : Int :=
  if is_within_gene then 0
  else min |snp_pos - g.start| |snp_pos - g.end_|

/-- The position classification of lines 188-203. -/
def snpPositionCategory (snp_pos : Int) (g : Gene) (is_within_gene : Bool) : String :=
  if is_within_gene then "within gene"
  else if g.orientation = "+" then
    if snp_pos < g.start then "5\x27" else "3\x27"
  else
    if snp_pos > g.end_ then "5\x27" else "3\x27"

/-- One row of snp_gene_df (the keys of the dicts appended at lines 205-219,
222-236 and 239-253). Gene-side fields are none in the null-gene rows. -/
structure SnpGeneRecord where
  snp_chr : String
  snp_id : String
  snp_pos : Int
  pvalue : Option ℚ
  gene_id : Option String
  gene_start : Option Int
  gene_end : Option Int
  gene_orientation : Option String
  distance : Option Int
  is_within_gene : Bool
  snp_position_category : Option String
  gene_function : Option String
  gene_go_terms : Option String
deriving DecidableEq, Repr

/-- The null-gene association rows of lines 222-236 and 239-253 (both
branches append the same record). -/
def nullGeneRecord (snp : Snp) : SnpGeneRecord :=
  { snp_chr := snp.chr
    snp_id := snp.snp_id
    snp_pos := snp.pos
    pvalue := snp.pvalue
    gene_id := none
    gene_start := none
    gene_end := none
    gene_orientation := none
    distance := none
    is_within_gene := false
    snp_position_category := none
    gene_function := none
    gene_go_terms := none }

/-- The association row appended at lines 205-219 for one nearby gene. -/
def mkAssocRecord (snp : Snp) (g : Gene) (is_within_gene : Bool) (distance : Int) :
    SnpGeneRecord :=
  { snp_chr := snp.chr
    snp_id := snp.snp_id
    snp_pos := snp.pos
    pvalue := snp.pvalue
    gene_id := some g.gene_id
    gene_start := some g.start
    gene_end := some g.end_
    gene_orientation := some g.orientation
    distance := some distance
    is_within_gene := is_within_gene
    snp_position_category := some (snpPositionCategory snp.pos g is_within_gene)
    gene_function := g.function
    gene_go_terms := g.go_terms }

/-- genes_on_chr of line 158. -/
def genesOnChr (gene_df : List Gene) (snp : Snp) : List Gene :=
  gene_df.filter (fun g => g.chr == snp.chr)

/-- A row of genes_on_chr after the two apply calls added the
is_within_gene and distance columns (lines 161-171). -/
structure GeneRow where
  gene : Gene
  is_within_gene : Bool
  distance : Int
deriving DecidableEq, Repr

/-- genes_on_chr with its computed columns, lines 161-171. -/
def geneRows (gene_df : List Gene) (snp : Snp) : List GeneRow :=
  (genesOnChr gene_df snp).map (fun g =>
    { gene := g
      is_within_gene := isWithinGene snp.pos g
      distance := calculate_distance snp.pos g (isWithinGene snp.pos g) })

/-- nearby_genes of line 174: rows within the distance threshold. -/
def nearbyGenes (gene_df : List Gene) (distance_threshold : Int) (snp : Snp) :
    List GeneRow :=
  (geneRows gene_df snp).filter (fun row => decide (row.distance ≤ distance_threshold))

/-- The per-variant body of the loop at lines 152-253. The source sorts
nearby_genes with pandas sort_values on the distance column, whose default
algorithm (numpy quicksort) is not stable; the embedding uses a mergesort,
which agrees with the source on the multiset of rows and on the
ascending-distance ordering, while the relative order of rows with equal
distance is implementation-defined in the source. -/
def annotateSnp (gene_df : List Gene) (distance_threshold : Int) (snp : Snp) :
    List SnpGeneRecord :=
  if (genesOnChr gene_df snp).length > 0 then
    if (nearbyGenes gene_df distance_threshold snp).length > 0 then
      ((nearbyGenes gene_df distance_threshold snp).mergeSort
          (fun a b => decide (a.distance ≤ b.distance))).map
        (fun row => mkAssocRecord snp row.gene row.is_within_gene row.distance)
    else [nullGeneRecord snp]
  else [nullGeneRecord snp]

/-- The variant-to-gene association table: the p-value filter of lines
136-146 followed by the per-variant loop of lines 152-253, rows in
production order. -/
def analyzeAssociations (gene_df : List Gene) (gwas : List Snp)
    (distance_threshold : Int) (pvalue_threshold : ℚ) : List SnpGeneRecord :=
  (filterByPvalue pvalue_threshold gwas).flatMap (annotateSnp gene_df distance_threshold)

/-- Every row emitted for a variant is either the null-gene row or the
association row of some catalog gene on the same chromosome whose distance
is within the threshold. -/
theorem annotateSnp_mem_cases {gene_df : List Gene} {dt : Int} {snp : Snp}
    {r : SnpGeneRecord} (hr : r ∈ annotateSnp gene_df dt snp) :
    r = nullGeneRecord snp ∨
    ∃ g ∈ gene_df, g.chr = snp.chr ∧
      calculate_distance snp.pos g (isWithinGene snp.pos g) ≤ dt ∧
      r = mkAssocRecord snp g (isWithinGene snp.pos g)
            (calculate_distance snp.pos g (isWithinGene snp.pos g)) := by
  unfold annotateSnp at hr
  split at hr
  · split at hr
    · rcases List.mem_map.mp hr with ⟨row, hrow, heq⟩
      rw [List.mem_mergeSort] at hrow
      rcases List.mem_filter.mp hrow with ⟨hrow2, hdist⟩
      rcases List.mem_map.mp hrow2 with ⟨g, hgmem, hgeq⟩
      rcases List.mem_filter.mp hgmem with ⟨hgdf, hchr⟩
      refine Or.inr ⟨g, hgdf, by simpa using hchr, ?_, ?_⟩
      · rw [← hgeq] at hdist
        simpa using hdist
      · rw [← heq, ← hgeq]
    · simp only [List.mem_singleton] at hr
      exact Or.inl hr
  · simp only [List.mem_singleton] at hr
    exact Or.inl hr

/-- When no gene on the chromosome of the variant is within the distance
threshold (in particular when there is no gene on that chromosome at all),
the per-variant loop emits exactly the single null-gene row. -/
theorem annotateSnp_null_of_far {gene_df : List Gene} {dt : Int} {snp : Snp}
    (h : ∀ g ∈ gene_df, g.chr = snp.chr →
      ¬ calculate_distance snp.pos g (isWithinGene snp.pos g) ≤ dt) :
    annotateSnp gene_df dt snp = [nullGeneRecord snp] := by
  unfold annotateSnp
  split
  · split
    · rename_i hlen
      exfalso
      rcases List.exists_mem_of_length_pos hlen with ⟨row, hrow⟩
      rcases List.mem_filter.mp hrow with ⟨hrow2, hdist⟩
      rcases List.mem_map.mp hrow2 with ⟨g, hgmem, hgeq⟩
      rcases List.mem_filter.mp hgmem with ⟨hgdf, hchr⟩
      refine h g hgdf (by simpa using hchr) ?_
      rw [← hgeq] at hdist
      simpa using hdist
    · rfl
  · rfl

/-- C2: for every candidate gene on the chromosome of the variant, the
is_within_gene flag is true exactly when gene start ≤ position ≤ gene end;
in every emitted association row, a true flag comes with distance 0 and
category "within gene", and a false flag comes with distance equal to the
minimum of the absolute distances to the two gene ends. -/
theorem annotateSnp_within_distance (gene_df : List Gene) (dt : Int) (snp : Snp) :
    (∀ g ∈ gene_df, g.chr = snp.chr →
      (isWithinGene snp.pos g = true ↔ (g.start ≤ snp.pos ∧ snp.pos ≤ g.end_))) ∧
    (∀ r ∈ annotateSnp gene_df dt snp, ∀ gs ge : Int,
      r.gene_start = some gs → r.gene_end = some ge →
      ((r.is_within_gene = true ↔ (gs ≤ snp.pos ∧ snp.pos ≤ ge)) ∧
       (r.is_within_gene = true →
         r.distance = some 0 ∧ r.snp_position_category = some "within gene") ∧
       (r.is_within_gene = false →
         r.distance = some (min |snp.pos - gs| |snp.pos - ge|)))) := by
  constructor
  · intro g _ _
    simp [isWithinGene, ge_iff_le]
  · intro r hr gs ge hs he
    rcases annotateSnp_mem_cases hr with hnull | ⟨g, _, _, _, heq⟩
    · rw [hnull] at hs
      simp [nullGeneRecord] at hs
    · subst heq
      simp only [mkAssocRecord, Option.some.injEq] at hs he
      subst hs
      subst he
      refine ⟨?_, ?_, ?_⟩
      · simp [mkAssocRecord, isWithinGene, ge_iff_le]
      · intro hw
        simp only [mkAssocRecord] at hw ⊢
        simp [calculate_distance, snpPositionCategory, hw]
      · intro hw
        simp only [mkAssocRecord] at hw ⊢
        simp [calculate_distance, hw]

/-- The plus-strand witness gene: chr "1", start 999, end 1999. -/
def wGene : Gene := loadGene gFeatPlus

/-- A variant inside wGene. -/
def wSnpIn : Snp := { chr := "1", snp_id := "s1", pos := 1500, pvalue := none }

/-- The association row emitted for wSnpIn against wGene. -/
def wRecIn : SnpGeneRecord := mkAssocRecord wSnpIn wGene true 0

/-- Concrete evaluation of the annotator on wSnpIn. -/
theorem annotateSnp_wSnpIn_eval : annotateSnp [wGene] 5000 wSnpIn = [wRecIn] := by
  have hnear : nearbyGenes [wGene] 5000 wSnpIn =
      [{ gene := wGene, is_within_gene := true, distance := 0 }] := by decide
  simp only [annotateSnp, hnear, List.mergeSort_singleton]
  decide

/-- Witness for annotateSnp_within_distance at the concrete inside variant. -/
theorem annotateSnp_within_distance_witness :
    wRecIn.distance = some 0 ∧ wRecIn.snp_position_category = some "within gene" := by
  have h := (annotateSnp_within_distance [wGene] 5000 wSnpIn).2 wRecIn
    (by rw [annotateSnp_wSnpIn_eval]; exact List.mem_singleton.mpr rfl)
    999 1999 (by decide) (by decide)
  exact h.2.1 (by decide)

/-- C3: in every emitted association row whose variant is not within the
gene, a plus-strand gene classifies a position before the gene start as the
five-prime side and after the gene end as the three-prime side, and a
minus-strand gene classifies the two sides the other way around. The
hypothesis gs ≤ ge is the data-model invariant start ≤ end of catalog
genes. -/
theorem annotateSnp_strand_category (gene_df : List Gene) (dt : Int) (snp : Snp) :
    ∀ r ∈ annotateSnp gene_df dt snp, r.is_within_gene = false →
      ∀ gs ge : Int, r.gene_start = some gs → r.gene_end = some ge → gs ≤ ge →
      ((r.gene_orientation = some "+" →
         (snp.pos < gs → r.snp_position_category = some "5\x27") ∧
         (ge < snp.pos → r.snp_position_category = some "3\x27")) ∧
       (r.gene_orientation = some "-" →
         (ge < snp.pos → r.snp_position_category = some "5\x27") ∧
         (snp.pos < gs → r.snp_position_category = some "3\x27"))) := by
  intro r hr hw gs ge hs he hge
  rcases annotateSnp_mem_cases hr with hnull | ⟨g, _, _, _, heq⟩
  · rw [hnull] at hs
    simp [nullGeneRecord] at hs
  · subst heq
    simp only [mkAssocRecord, Option.some.injEq] at hs he hw ⊢
    subst hs
    subst he
    constructor
    · intro hplus
      constructor
      · intro hlt
        simp [snpPositionCategory, hw, hplus, hlt]
      · intro hgt
        have hnlt : ¬ snp.pos < g.start := by omega
        simp [snpPositionCategory, hw, hplus, hnlt]
    · intro hminus
      constructor
      · intro hgt
        simp [snpPositionCategory, hw, hminus, hgt]
      · intro hlt
        have hngt : ¬ g.end_ < snp.pos := by omega
        simp [snpPositionCategory, hw, hminus, hngt]

/-- The minus-strand witness gene: chr "1", start 1000, end 2000. -/
def wGeneM : Gene := loadGene gFeatMinus

/-- A variant upstream in coordinates of wGeneM. -/
def wSnpM : Snp := { chr := "1", snp_id := "s2", pos := 500, pvalue := none }

/-- The association row emitted for wSnpM against wGeneM. -/
def wRecM : SnpGeneRecord := mkAssocRecord wSnpM wGeneM false 500

/-- Concrete evaluation of the annotator on wSnpM. -/
theorem annotateSnp_wSnpM_eval : annotateSnp [wGeneM] 5000 wSnpM = [wRecM] := by
  have hnear : nearbyGenes [wGeneM] 5000 wSnpM =
      [{ gene := wGeneM, is_within_gene := false, distance := 500 }] := by decide
  simp only [annotateSnp, hnear, List.mergeSort_singleton]
  decide

/-- Witness for annotateSnp_strand_category: before the start of a
minus-strand gene the emitted category is the three-prime side. -/
theorem annotateSnp_strand_category_witness :
    wRecM.snp_position_category = some "3\x27" := by
  have h := annotateSnp_strand_category [wGeneM] 5000 wSnpM wRecM
    (by rw [annotateSnp_wSnpM_eval]; exact List.mem_singleton.mpr rfl)
    (by decide) 1000 2000 (by decide) (by decide) (by decide)
  exact (h.2 (by decide)).2 (by decide)

/-- C6: the annotator never fails on a variant; when no gene on the
chromosome of the variant is within the distance threshold (in particular
when the chromosome has no gene at all), it emits exactly one association
row, with gene_id, position category and all other gene-side fields null. -/
theorem annotateSnp_never_fails (gene_df : List Gene) (dt : Int) (snp : Snp)
    (h : ∀ g ∈ gene_df, g.chr = snp.chr →
      ¬ calculate_distance snp.pos g (isWithinGene snp.pos g) ≤ dt) :
    annotateSnp gene_df dt snp = [nullGeneRecord snp] ∧
    (nullGeneRecord snp).gene_id = none ∧
    (nullGeneRecord snp).snp_position_category = none ∧
    (nullGeneRecord snp).gene_start = none ∧
    (nullGeneRecord snp).gene_end = none ∧
    (nullGeneRecord snp).gene_orientation = none ∧
    (nullGeneRecord snp).gene_function = none ∧
    (nullGeneRecord snp).gene_go_terms = none :=
  ⟨annotateSnp_null_of_far h, rfl, rfl, rfl, rfl, rfl, rfl, rfl⟩

/-- Witness for annotateSnp_never_fails with an empty gene catalog. -/
theorem annotateSnp_never_fails_witness :
    annotateSnp [] 5000 wSnpM = [nullGeneRecord wSnpM] ∧
    (nullGeneRecord wSnpM).gene_id = none := by
  have h := annotateSnp_never_fails [] 5000 wSnpM (by simp)
  exact ⟨h.1, h.2.1⟩

/-- A variant far from wGene on the same chromosome. -/
def wSnpFar : Snp := { chr := "1", snp_id := "s3", pos := 100000, pvalue := none }

/-- C10: in the null-gene association row the is_within_gene flag is the
boolean false rather than null, the distance is null, and the four variant
fields are carried over unchanged. -/
theorem nullGeneRecord_fields (gene_df : List Gene) (dt : Int) (snp : Snp)
    (h : ∀ g ∈ gene_df, g.chr = snp.chr →
      ¬ calculate_distance snp.pos g (isWithinGene snp.pos g) ≤ dt) :
    annotateSnp gene_df dt snp = [nullGeneRecord snp] ∧
    (nullGeneRecord snp).is_within_gene = false ∧
    (nullGeneRecord snp).distance = none ∧
    (nullGeneRecord snp).snp_chr = snp.chr ∧
    (nullGeneRecord snp).snp_id = snp.snp_id ∧
    (nullGeneRecord snp).snp_pos = snp.pos ∧
    (nullGeneRecord snp).pvalue = snp.pvalue :=
  ⟨annotateSnp_null_of_far h, rfl, rfl, rfl, rfl, rfl, rfl⟩

/-- Witness for nullGeneRecord_fields with a variant beyond the distance
threshold on a chromosome that does have a gene. -/
theorem nullGeneRecord_fields_witness :
    annotateSnp [wGene] 5000 wSnpFar = [nullGeneRecord wSnpFar] ∧
    (nullGeneRecord wSnpFar).is_within_gene = false ∧
    (nullGeneRecord wSnpFar).distance = none := by
  have h := nullGeneRecord_fields [wGene] 5000 wSnpFar (by decide)
  exact ⟨h.1, h.2.1, h.2.2.1⟩

/-- A pandas cell of the pvalue column of snp_gene_df as the aggregator
sees it through iterrows: a Python None (object column), a NaN (missing
value of a float column), or a number. -/
inductive PyVal where
  | none
  | nan
  | num (q : ℚ)
deriving DecidableEq, Repr

/-- The guard row pvalue is not None of lines 270, 296 and 304: NaN is not
None, so NaN passes the guard. -/
def pyIsNotNone : PyVal → Bool
  | PyVal.none => false
  | _ => true

/-- Python comparison a < b on cells: numeric on numbers, False whenever a
NaN is involved. None never reaches a comparison in the aggregator because
of the is-not-None guards. -/
def pyLtB : PyVal → PyVal → Bool
  | PyVal.num a, PyVal.num b => decide (a < b)
  | _, _ => false

/-- Python min(a, b) of line 308: returns b exactly when b < a, so a NaN
first argument is kept no matter what the second argument is. -/
def pyMin (a b : PyVal) : PyVal :=
  if pyLtB b a then b else a

/-- The pd.DataFrame conversion of the pvalue column of snp_gene_records at
line 256: a column holding at least one number gets a float dtype and every
Python None in it becomes NaN; a column holding only None keeps object
dtype and its None values. -/
def toPandasCol (ps : List (Option ℚ)) : List PyVal :=
  if ps.all (fun p => p.isNone) then
    ps.map (fun _ => PyVal.none)
  else
    ps.map (fun p => match p with
      | Option.none => PyVal.nan
      | some q => PyVal.num q)

/-- snp_gene_df as iterated by the aggregator: each association record
paired with its pvalue cell after the DataFrame conversion. -/
def snpGeneTable (records : List SnpGeneRecord) : List (SnpGeneRecord × PyVal) :=
  records.zip (toPandasCol (records.map (fun r => r.pvalue)))

/-- The components of the snp_info string built at lines 268-278: the SNP
id, the pvalue cell when it is not None, and either the within-gene marker
or the truncated distance with the position category. The embedding keeps
the components instead of the rendered string. -/
structure SnpInfo where
  snp_id : String
  pvalue : Option PyVal
  is_within_gene : Bool
  distance_category : Option (Int × Option String)
deriving DecidableEq, Repr

/-- Assembly of the snp_info components, lines 268-278. -/
def mkSnpInfo (r : SnpGeneRecord) (pv : PyVal) : SnpInfo :=
  { snp_id := r.snp_id
    pvalue := if pyIsNotNone pv then some pv else none
    is_within_gene := r.is_within_gene
    distance_category :=
      if r.is_within_gene then none
      else some (r.distance.getD 0, r.snp_position_category) }

/-- One value of gene_snp_dict, lines 281-297. -/
structure GeneSnpRecord where
  gene_id : String
  chr : String
  gene_start : Option Int
  gene_end : Option Int
  gene_orientation : Option String
  gene_function : Option String
  gene_go_terms : Option String
  associated_snps : List SnpInfo
  snp_count : Nat
  min_pvalue : PyVal
deriving DecidableEq, Repr

/-- The fresh dict entry of lines 282-297, including the initial min_pvalue
assignment performed when the row pvalue cell is not None. -/
def initGeneEntry (row : SnpGeneRecord) (pv : PyVal) (gid : String) : GeneSnpRecord :=
  { gene_id := gid
    chr := row.snp_chr
    gene_start := row.gene_start
    gene_end := row.gene_end
    gene_orientation := row.gene_orientation
    gene_function := row.gene_function
    gene_go_terms := row.gene_go_terms
    associated_snps := []
    snp_count := 0
    min_pvalue := if pyIsNotNone pv then pv else PyVal.none }

/-- Lines 299-308: append the snp_info, increment snp_count, and update the
running minimum, which is touched only when the row pvalue cell is not
None. -/
def updateEntry (e : GeneSnpRecord) (info : SnpInfo) (pv : PyVal) : GeneSnpRecord :=
  { e with
    associated_snps := e.associated_snps ++ [info]
    snp_count := e.snp_count + 1
    min_pvalue :=
      if pyIsNotNone pv then
        match e.min_pvalue with
        | PyVal.none => pv
        | m => pyMin m pv
      else e.min_pvalue }

/-- Update the first entry satisfying p. Python dict keys are unique, so
the entry holding a given gene_id occurs at most once in the fold below and
updating the first match is updating the match. -/
def updateFirst {α : Type} (p : α → Bool) (f : α → α) : List α → List α
  | [] => []
  | a :: as => if p a then f a :: as else a :: updateFirst p f as

/-- One step of the aggregation loop of lines 266-308 over one valid row. -/
def aggStep (acc : List GeneSnpRecord) (row : SnpGeneRecord × PyVal) :
    List GeneSnpRecord :=
  let gid := row.1.gene_id.getD ""
  let info := mkSnpInfo row.1 row.2
  if acc.any (fun e => e.gene_id == gid) then
    updateFirst (fun e => e.gene_id == gid) (fun e => updateEntry e info row.2) acc
  else
    acc ++ [updateEntry (initGeneEntry row.1 row.2 gid) info row.2]

/-- The gene-centric aggregation of lines 258-320: keep the rows whose
gene_id is not null and fold them into per-gene records in first-seen
order. -/
def geneCentric (records : List SnpGeneRecord) : List GeneSnpRecord :=
  ((snpGeneTable records).filter (fun rp => rp.1.gene_id.isSome)).foldl aggStep []

/-- Updating one present entry with updateEntry raises the total snp_count
by exactly one. -/
theorem sum_snpCount_updateFirst (p : GeneSnpRecord → Bool) (info : SnpInfo)
    (pv : PyVal) (l : List GeneSnpRecord) (hl : l.any p = true) :
    ((updateFirst p (fun e => updateEntry e info pv) l).map
        (fun e => e.snp_count)).sum =
      (l.map (fun e => e.snp_count)).sum + 1 := by
  induction l with
  | nil => simp at hl
  | cons a as ih =>
    by_cases h : p a
    · simp [updateFirst, h, updateEntry]
      omega
    · have has : as.any p = true := by simpa [h] using hl
      simp [updateFirst, h, ih has]
      omega

/-- Each aggregation step raises the total snp_count by exactly one. -/
theorem sum_snpCount_aggStep (acc : List GeneSnpRecord)
    (row : SnpGeneRecord × PyVal) :
    ((aggStep acc row).map (fun e => e.snp_count)).sum =
      (acc.map (fun e => e.snp_count)).sum + 1 := by
  unfold aggStep
  dsimp only
  split
  · rename_i h
    exact sum_snpCount_updateFirst _ _ _ acc h
  · simp [updateEntry, initGeneEntry]

/-- Folding the aggregation step adds one to the total snp_count per row. -/
theorem sum_snpCount_foldl (rows : List (SnpGeneRecord × PyVal))
    (acc : List GeneSnpRecord) :
    (((rows.foldl aggStep acc).map (fun e => e.snp_count)).sum) =
      (acc.map (fun e => e.snp_count)).sum + rows.length := by
  induction rows generalizing acc with
  | nil => simp
  | cons r rs ih =>
    rw [List.foldl_cons, ih, sum_snpCount_aggStep]
    simp
    omega

/-- Filtering a zip on a property of the first component keeps as many
elements as filtering the first list, when the lists have equal length. -/
theorem length_filter_zip_fst {α β : Type} (p : α → Bool) :
    ∀ (l : List α) (m : List β), l.length = m.length →
      ((l.zip m).filter (fun x => p x.1)).length = (l.filter p).length := by
  intro l
  induction l with
  | nil =>
    intro m _
    simp
  | cons a as ih =>
    intro m h
    cases m with
    | nil => simp at h
    | cons b bs =>
      simp only [List.length_cons, Nat.add_right_cancel_iff] at h
      by_cases hp : p a <;> simp [List.zip_cons_cons, hp, ih bs h]

/-- The DataFrame column conversion preserves length. -/
theorem length_toPandasCol (ps : List (Option ℚ)) :
    (toPandasCol ps).length = ps.length := by
  unfold toPandasCol
  split <;> simp

/-- C7: the sum of snp_count over all gene-centric records equals the
number of association records whose gene_id is not null. -/
theorem geneCentric_variant_count (records : List SnpGeneRecord) :
    ((geneCentric records).map (fun e => e.snp_count)).sum =
      (records.filter (fun r => r.gene_id.isSome)).length := by
  unfold geneCentric
  rw [sum_snpCount_foldl]
  simp only [List.map_nil, List.sum_nil, Nat.zero_add]
  exact length_filter_zip_fst (fun r => r.gene_id.isSome) records
    (toPandasCol (records.map (fun r => r.pvalue)))
    (by rw [length_toPandasCol, List.length_map])

/-- Every row emitted for a variant carries the pvalue of that variant. -/
theorem pvalue_annotateSnp {gene_df : List Gene} {dt : Int} {snp : Snp}
    {r : SnpGeneRecord} (hr : r ∈ annotateSnp gene_df dt snp) :
    r.pvalue = snp.pvalue := by
  rcases annotateSnp_mem_cases hr with h | ⟨g, _, _, _, h⟩ <;> subst h <;> rfl

/-- A second variant within wGene, this one carrying a p-value. -/
def bugSnp2 : Snp := { chr := "1", snp_id := "s4", pos := 1600, pvalue := some 1 }

/-- Concrete evaluation of the annotator on bugSnp2. -/
theorem annotateSnp_bugSnp2_eval :
    annotateSnp [wGene] 5000 bugSnp2 = [mkAssocRecord bugSnp2 wGene true 0] := by
  have hnear : nearbyGenes [wGene] 5000 bugSnp2 =
      [{ gene := wGene, is_within_gene := true, distance := 0 }] := by decide
  simp only [annotateSnp, hnear, List.mergeSort_singleton]
  decide

/-- C5 failing run: gene G1 (chr 1, start 999, end 1999) with two variants
inside it, the first with a null p-value, the second with p-value 1. The
null p-value becomes NaN in the DataFrame, passes the is-not-None guard,
and Python min keeps the NaN, so the gene-centric min_pvalue ends up NaN
instead of the minimum 1 of the non-null p-values, which the second
conjunct exhibits. -/
theorem minPvalue_nan_poisoning :
    ((geneCentric (analyzeAssociations [wGene] [wSnpIn, bugSnp2] 5000 1)).map
        (fun e => (e.gene_id, e.min_pvalue)) = [("G1", PyVal.nan)]) ∧
    ((analyzeAssociations [wGene] [wSnpIn, bugSnp2] 5000 1).filterMap
        (fun r => r.pvalue) = [1]) := by
  have hfilter : filterByPvalue 1 [wSnpIn, bugSnp2] = [wSnpIn, bugSnp2] := by
    unfold filterByPvalue
    rw [if_neg (lt_irrefl 1)]
  have hassoc : analyzeAssociations [wGene] [wSnpIn, bugSnp2] 5000 1 =
      [mkAssocRecord wSnpIn wGene true 0, mkAssocRecord bugSnp2 wGene true 0] := by
    unfold analyzeAssociations
    rw [hfilter]
    rw [show [wSnpIn, bugSnp2].flatMap (annotateSnp [wGene] 5000) =
        annotateSnp [wGene] 5000 wSnpIn ++ annotateSnp [wGene] 5000 bugSnp2 by simp]
    rw [annotateSnp_wSnpIn_eval, annotateSnp_bugSnp2_eval]
    rfl
  rw [hassoc]
  constructor
  · decide
  · decide

/-- C9 counterexample: with a p-value threshold of 2, which is not 1.0, a
variant with a null p-value passes the filter untouched and still
contributes an association row. -/
theorem nullPvalue_survives_threshold_two :
    (2:ℚ) ≠ 1 ∧
    filterByPvalue 2 [wSnpM] = [wSnpM] ∧
    analyzeAssociations [] [wSnpM] 5000 2 = [nullGeneRecord wSnpM] := by
  refine ⟨by decide, by decide, by decide⟩

/-- C9 amended: a variant with a null p-value is removed by the filter
exactly when the supplied threshold is strictly below 1.0; for a threshold
not below 1.0 no filtering is applied at all, and under a threshold below
1.0 no emitted association row carries a null p-value. -/
theorem nullPvalue_filter_amended (t : ℚ) (snps : List Snp) :
    (t < 1 → ∀ s ∈ snps, s.pvalue = none → s ∉ filterByPvalue t snps) ∧
    (¬ t < 1 → filterByPvalue t snps = snps) ∧
    (∀ gene_df : List Gene, ∀ dt : Int, t < 1 →
      ∀ r ∈ analyzeAssociations gene_df snps dt t, r.pvalue ≠ none) := by
  refine ⟨?_, ?_, ?_⟩
  · intro ht s _ hnone hmem
    unfold filterByPvalue at hmem
    rw [if_pos ht] at hmem
    rcases List.mem_filter.mp hmem with ⟨_, hp⟩
    rw [hnone] at hp
    simp [pvalueLE] at hp
  · intro ht
    unfold filterByPvalue
    rw [if_neg ht]
  · intro gene_df dt ht r hr
    unfold analyzeAssociations at hr
    rcases List.mem_flatMap.mp hr with ⟨s, hs, hrs⟩
    rw [pvalue_annotateSnp hrs]
    unfold filterByPvalue at hs
    rw [if_pos ht] at hs
    rcases List.mem_filter.mp hs with ⟨_, hp⟩
    intro hnone
    rw [hnone] at hp
    simp [pvalueLE] at hp

/-- Witness for nullPvalue_filter_amended at threshold 0: the null-p-value
variant wSnpM is removed by the filter. -/
theorem nullPvalue_filter_amended_witness :
    wSnpM ∉ filterByPvalue 0 [wSnpM] :=
  (nullPvalue_filter_amended 0 [wSnpM]).1 (by decide)
    wSnpM (List.mem_singleton.mpr rfl) rfl

end GwasGenes
